import Mathlib

/-!
# Verification of the ai_agent_dotfiles CLI utilities

Shallow embedding of the decision logic of the repository's scripts:

* `shared/skills/convert-to-markdown/scripts/convert.py`:
  `merge_extractions`, `run_pandoc`, the routing of `convert_file_content`,
  and the exit-code behaviour of `main`.
* `shared/skills/confluence-datacenter/scripts/confluence.py`:
  the request payload built by `ConfluenceClient.update_page`.
* `shared/skills/google-workspace-convert/scripts/convert.py`:
  `extract_file_id`.
* `shared/skills/generate-image/scripts/generate.py`:
  the exit-code behaviour of `main`.

External effects (subprocesses, HTTP) are modelled by passing their outcomes
as explicit arguments; pure string manipulation is translated directly.
-/

namespace AgentDotfiles

/-- Python truthiness of an optional string: `None` and `""` are falsy,
every non-empty string is truthy. -/
def optTruthy : Option String → Bool
  | none => false
  | some s => !(s == "")

/-- The characters removed by Python `str.strip()` (the ASCII whitespace
characters; the scripts' inputs are text, for which this coincides with
Python's whitespace set on the relevant ends). -/
def pyWhitespace (c : Char) : Bool :=
  c == ' ' || c == '\t' || c == '\n' || c == '\r' || c == '\x0b' || c == '\x0c'

/-- Python `s.strip()`: remove leading and trailing whitespace. -/
def pyStrip (s : String) : String :=
  ⟨((s.data.dropWhile pyWhitespace).reverse.dropWhile pyWhitespace).reverse⟩

/-- Python `s.lower()` (character-wise lowercasing; the file extensions
this is applied to are ASCII). -/
def pyLower (s : String) : String := ⟨s.data.map Char.toLower⟩

/-- The fixed separator placed between the OCR extraction and the text
extraction by `merge_extractions` (the literal parts of its f-string). -/
def mergeSeparator : String := "\n\n---\n\n## Additional Text Extraction\n\n"

/-- `merge_extractions(text_content, ocr_content)` from
`convert-to-markdown/scripts/convert.py` lines 75-95.
The Python comparison `ocr_len <= text_len * 1.2` (on the lengths of the
**stripped** strings) is embedded as the exact comparison
`10 * ocr_len ≤ 12 * text_len`, which agrees with the IEEE-double
comparison Python performs for all string lengths arising in practice. -/
def merge_extractions (text_content ocr_content : Option String) : String :=
  if !optTruthy text_content && !optTruthy ocr_content then ""
  else if !optTruthy text_content then
    (if optTruthy ocr_content then ocr_content.getD "" else "")
  else if !optTruthy ocr_content then text_content.getD ""
  else
    let t := text_content.getD ""
    let o := ocr_content.getD ""
    let text_len := (pyStrip t).length
    let ocr_len := (pyStrip o).length
    if 10 * ocr_len ≤ 12 * text_len then t
    else o ++ mergeSeparator ++ t

/-- `PANDOC_FORMATS` from `convert-to-markdown/scripts/convert.py` line 21. -/
def PANDOC_FORMATS : List String :=
  [".epub", ".org", ".rst", ".tex", ".latex", ".odt", ".rtf"]

/-- The image-extension set tested inline at line 215 of
`convert-to-markdown/scripts/convert.py` to decide OCR in auto mode. -/
def OCR_IMAGE_FORMATS : List String :=
  [".jpg", ".jpeg", ".png", ".gif", ".webp"]

/-- Outcome of a `subprocess.run` invocation: normal completion with a
return code and captured streams, a missing binary (`FileNotFoundError`),
or a timeout (`subprocess.TimeoutExpired`). -/
inductive SubprocessOutcome where
  | completed (returncode : Int) (stdout stderr : String)
  | fileNotFound
  | timedOut
deriving DecidableEq

/-- `run_pandoc` from `convert-to-markdown/scripts/convert.py` lines 27-45,
as a function of the subprocess outcome: stdout on exit code 0, `None`
otherwise (the `except` arms also return `None`). -/
def run_pandoc (outcome : SubprocessOutcome) : Option String :=
  match outcome with
  | SubprocessOutcome.completed rc out _ => if rc == 0 then some out else none
  | SubprocessOutcome.fileNotFound => none
  | SubprocessOutcome.timedOut => none

/-- A converter invocation made by `convert_file_content`: either
`run_pandoc` or `run_markitdown` with its `enable_ocr` flag. -/
inductive ConvCall where
  | pandoc
  | markitdown (ocr : Bool)
deriving DecidableEq

/-- The results the two converters would produce for the file at hand
(`run_pandoc` and `run_markitdown path enable_ocr`), passed in as an
oracle so that `convert_file_content` is a pure function. -/
structure ConvOracle where
  pandocResult : Option String
  markitdownResult : Bool → Option String

/-- `convert_file_content(path, mode, hybrid)` from
`convert-to-markdown/scripts/convert.py` lines 192-226, as a function of
the file's extension (`path.suffix`), plus the ordered list of converter
invocations it performs. `Except.error` models the `RuntimeError` raised
when every converter fails. -/
def convert_file_content (oracle : ConvOracle) (suffix mode : String)
    (hybrid : Bool) : Except String String × List ConvCall :=
  let sfx := pyLower suffix
  if PANDOC_FORMATS.contains sfx then
    let c := oracle.pandocResult
    if optTruthy c then (Except.ok (c.getD ""), [ConvCall.pandoc])
    else
      let c2 := oracle.markitdownResult false
      if optTruthy c2 then
        (Except.ok (c2.getD ""), [ConvCall.pandoc, ConvCall.markitdown false])
      else
        (Except.error "Failed to convert",
         [ConvCall.pandoc, ConvCall.markitdown false])
  else if sfx == ".pdf" && hybrid then
    let t := oracle.markitdownResult false
    let o := oracle.markitdownResult true
    (Except.ok (merge_extractions t o),
     [ConvCall.markitdown false, ConvCall.markitdown true])
  else
    let enable_ocr :=
      mode == "ocr" || (mode == "auto" && OCR_IMAGE_FORMATS.contains sfx)
    let c := oracle.markitdownResult enable_ocr
    if optTruthy c then (Except.ok (c.getD ""), [ConvCall.markitdown enable_ocr])
    else
      let c2 := oracle.pandocResult
      if optTruthy c2 then
        (Except.ok (c2.getD ""), [ConvCall.markitdown enable_ocr, ConvCall.pandoc])
      else
        (Except.error "Failed to convert",
         [ConvCall.markitdown enable_ocr, ConvCall.pandoc])

/-- Exit code of `main` in `convert-to-markdown/scripts/convert.py`
lines 229-260, as a function of the outcome of `convert_file`: 0 when it
returns, 1 when it raises (the `except Exception` arm). -/
def convert_cli_exit (result : Except String String) : Nat :=
  match result with
  | Except.ok _ => 0
  | Except.error _ => 1

/-- Exit code of `main` in `generate-image/scripts/generate.py`
lines 172-197, as a function of the outcome of `generate_image`: 0 when it
returns, 1 when it raises (the `except Exception` arm). -/
def generate_cli_exit (result : Except String String) : Nat :=
  match result with
  | Except.ok _ => 0
  | Except.error _ => 1

/-- The parts of the fetched page that `ConfluenceClient.update_page`
reads: `current.get("version", {}).get("number", 0)` and
`current.get("title", "")`; a missing key is `none`. -/
structure PageInfo where
  versionNumber : Option Nat
  title : Option String
deriving DecidableEq

/-- The `body` entry of the update payload:
`{body_format: {"value": body, "representation": body_format}}`. -/
structure PageBody where
  value : String
  representation : String
deriving DecidableEq

/-- The JSON payload `ConfluenceClient.update_page` sends in its PUT
request (`data` at lines 129-135 of `confluence.py`). -/
structure UpdateData where
  type : String
  title : String
  versionNumber : Nat
  minorEdit : Bool
  body : Option PageBody
deriving DecidableEq

/-- The payload built by `ConfluenceClient.update_page` from
`confluence-datacenter/scripts/confluence.py` lines 124-136, as a function
of the fetched current page (it calls `self.get_page(page_id)` first) and
of the optional new `body` and `title` arguments. `title or
current.get("title", "")` and `if body:` use Python truthiness. -/
def update_page_data (current : PageInfo) (body title : Option String)
    (body_format : String) (minor_edit : Bool) : UpdateData :=
  let current_version := current.versionNumber.getD 0
  { type := "page"
    title := if optTruthy title then title.getD "" else current.title.getD ""
    versionNumber := current_version + 1
    minorEdit := minor_edit
    body := if optTruthy body then some ⟨body.getD "", body_format⟩ else none }

/-- The character class `[a-zA-Z0-9_-]` of the Google Drive URL regexes. -/
def isIdChar (c : Char) : Bool :=
  c.isAlphanum || c == '_' || c == '-'

/-- One attempted regex match at the head of `l`: the regexes of
`extract_file_id` are a literal followed by `([a-zA-Z0-9_-]+)`, so a match
at this position needs the literal as a prefix followed by at least one
id character; the captured group is the maximal id-character run. -/
def matchAt (lit l : List Char) : Option (List Char) :=
  if lit.isPrefixOf l then
    let g := (l.drop lit.length).takeWhile isIdChar
    if g.isEmpty then none else some g
  else none

/-- `re.search` for a literal-plus-`([a-zA-Z0-9_-]+)` pattern: the match at
the leftmost position where the pattern matches, returning group 1. -/
def reSearchFirst (lit : List Char) : List Char → Option (List Char)
  | [] => none
  | c :: rest =>
    match matchAt lit (c :: rest) with
    | some g => some g
    | none => reSearchFirst lit rest

/-- The literal parts of the `patterns` list in `extract_file_id`
(`google-workspace-convert/scripts/convert.py` lines 60-67); each pattern
is this literal followed by the capture group `([a-zA-Z0-9_-]+)`. -/
def drivePatterns : List String :=
  ["/document/d/", "/spreadsheets/d/", "/presentation/d/", "/file/d/",
   "/drawings/d/", "id="]

/-- `extract_file_id(url_or_id)` from
`google-workspace-convert/scripts/convert.py` lines 55-74.
`Except.error` models the `ValueError` raised when no pattern matches. -/
def extract_file_id (url_or_id : String) : Except String String :=
  if !url_or_id.data.contains '/' && url_or_id.length > 20 then
    Except.ok url_or_id
  else
    match drivePatterns.findSome?
        (fun p => reSearchFirst p.data url_or_id.data) with
    | some g => Except.ok ⟨g⟩
    | none => Except.error ("Could not extract file ID from: " ++ url_or_id)

end AgentDotfiles

namespace AgentDotfiles

/-- C1 (counterexample): the claim as stated — over the raw string lengths —
fails: for `text_content = " a "` and `ocr_content = "bbb"` the inputs are
non-empty and equal-length (so `len(ocr) ≤ 1.2 · len(text)`), yet
`merge_extractions` does not return `text_content`, because the code
compares the lengths of the **stripped** strings. -/
theorem merge_raw_length_claim_counterexample :
    (" a " : String) ≠ "" ∧ ("bbb" : String) ≠ "" ∧
    10 * ("bbb" : String).length ≤ 12 * (" a " : String).length ∧
    merge_extractions (some " a ") (some "bbb") ≠ " a " := by decide

/-- C1 (amended): for non-empty `text_content` and `ocr_content`, if the
length of `ocr_content.strip()` is at most 1.2 times the length of
`text_content.strip()`, `merge_extractions` returns `text_content`
unchanged. -/
theorem merge_prefers_text_on_stripped_lengths (t o : String)
    (ht : t ≠ "") (ho : o ≠ "")
    (hlen : 10 * (pyStrip o).length ≤ 12 * (pyStrip t).length) :
    merge_extractions (some t) (some o) = t := by
  have ht' : (t == "") = false := beq_eq_false_iff_ne.mpr ht
  have ho' : (o == "") = false := beq_eq_false_iff_ne.mpr ho
  simp only [merge_extractions, optTruthy, ht', ho', Bool.not_false, Bool.and_self,
    Bool.false_and, if_false, Option.getD_some]
  simp [hlen]

/-- Witness for the amended C1 at equal strings without surrounding
whitespace. -/
theorem merge_prefers_text_on_stripped_lengths_witness :
    ("abc" : String) ≠ "" ∧ merge_extractions (some "abc") (some "abc") = "abc" :=
  ⟨by decide, merge_prefers_text_on_stripped_lengths "abc" "abc"
    (by decide) (by decide) (by decide)⟩

/-- C2 (counterexample): the claim as stated — over the raw string
lengths — fails: `ocr_content = " bbbbbb  "` is more than 1.2 times longer
than `text_content = "aaaaa"` (9 > 6), yet the merge returns just
`"aaaaa"` (the stripped lengths satisfy `6 ≤ 1.2 · 5`), so `ocr_content`
does not appear in the result at all. -/
theorem merge_concat_raw_length_counterexample :
    10 * (" bbbbbb  " : String).length > 12 * ("aaaaa" : String).length ∧
    merge_extractions (some "aaaaa") (some " bbbbbb  ") = "aaaaa" ∧
    ¬ (" bbbbbb  " : String).data <:+:
      (merge_extractions (some "aaaaa") (some " bbbbbb  ")).data := by decide

/-- C2 (amended): for non-empty `text_content` and `ocr_content`, if the
length of `ocr_content.strip()` is more than 1.2 times the length of
`text_content.strip()`, the merge returns `ocr_content`, then the fixed
separator, then `text_content` — both inputs verbatim, OCR first. -/
theorem merge_concatenates_on_stripped_lengths (t o : String)
    (ht : t ≠ "") (ho : o ≠ "")
    (hlen : 12 * (pyStrip t).length < 10 * (pyStrip o).length) :
    merge_extractions (some t) (some o) = o ++ mergeSeparator ++ t := by
  have ht' : (t == "") = false := beq_eq_false_iff_ne.mpr ht
  have ho' : (o == "") = false := beq_eq_false_iff_ne.mpr ho
  simp only [merge_extractions, optTruthy, ht', ho', Bool.not_false, Bool.and_self,
    Bool.false_and, if_false, Option.getD_some]
  simp [Nat.not_le.mpr hlen]

/-- Witness for the amended C2 at a clearly longer OCR string. -/
theorem merge_concatenates_on_stripped_lengths_witness :
    merge_extractions (some "a") (some "bbbbbbbbbb")
      = "bbbbbbbbbb" ++ mergeSeparator ++ "a" :=
  merge_concatenates_on_stripped_lengths "a" "bbbbbbbbbb"
    (by decide) (by decide) (by decide)

/-- C3: when both inputs are absent (None or the empty string),
`merge_extractions` returns the empty string. -/
theorem merge_both_absent_empty (t o : Option String)
    (ht : t = none ∨ t = some "") (ho : o = none ∨ o = some "") :
    merge_extractions t o = "" := by
  rcases ht with rfl | rfl <;> rcases ho with rfl | rfl <;> rfl

/-- Witness for C3 at `None` and `""`. -/
theorem merge_both_absent_empty_witness : merge_extractions none (some "") = "" :=
  merge_both_absent_empty none (some "") (Or.inl rfl) (Or.inr rfl)

/-- C4: when exactly one input is a non-empty string and the other is
absent (None or empty), `merge_extractions` returns that input unchanged,
on whichever side it appears. -/
theorem merge_single_input_identity (s : String) (hs : s ≠ "") (x : Option String)
    (hx : x = none ∨ x = some "") :
    merge_extractions (some s) x = s ∧ merge_extractions x (some s) = s := by
  have hs' : (s == "") = false := beq_eq_false_iff_ne.mpr hs
  rcases hx with rfl | rfl <;>
    constructor <;> simp [merge_extractions, optTruthy, hs']

/-- Witness for C4 at `"hello"` against `None`. -/
theorem merge_single_input_identity_witness :
    merge_extractions (some "hello") none = "hello" ∧
    merge_extractions none (some "hello") = "hello" :=
  merge_single_input_identity "hello" (by decide) none (Or.inl rfl)

/-- C5: for every oracle, mode and hybrid flag, the first converter
`convert_file_content` invokes is pandoc exactly when the lowercased file
extension is in `PANDOC_FORMATS`, and markitdown (with some OCR flag) for
every other extension. -/
theorem convert_file_content_routing (oracle : ConvOracle)
    (suffix mode : String) (hybrid : Bool) :
    (PANDOC_FORMATS.contains (pyLower suffix) = true →
      (convert_file_content oracle suffix mode hybrid).2.head?
        = some ConvCall.pandoc) ∧
    (PANDOC_FORMATS.contains (pyLower suffix) = false →
      ∃ b, (convert_file_content oracle suffix mode hybrid).2.head?
        = some (ConvCall.markitdown b)) := by
  constructor
  · intro h
    unfold convert_file_content
    simp only [h, if_true]
    split
    · rfl
    · split <;> rfl
  · intro h
    unfold convert_file_content
    simp only [h, Bool.false_eq_true, if_false]
    split
    · exact ⟨false, rfl⟩
    · split
      · exact ⟨_, rfl⟩
      · split
        · exact ⟨_, rfl⟩
        · exact ⟨_, rfl⟩

/-- Witness for C5 at the `.EPUB` extension (uppercase, exercising the
lowercasing). -/
theorem convert_file_content_routing_witness :
    PANDOC_FORMATS.contains (pyLower ".EPUB") = true ∧
    (convert_file_content ⟨some "P", fun _ => some "M"⟩ ".EPUB" "auto" false).2.head?
      = some ConvCall.pandoc :=
  ⟨by decide, (convert_file_content_routing ⟨some "P", fun _ => some "M"⟩
    ".EPUB" "auto" false).1 (by decide)⟩

/-- C6: `run_pandoc` returns `None` on a missing binary, on a timeout and
on any non-zero exit code, and it returns `some` output only when the
subprocess completed with exit code zero and that output is its stdout. -/
theorem run_pandoc_failure_spec :
    run_pandoc SubprocessOutcome.fileNotFound = none ∧
    run_pandoc SubprocessOutcome.timedOut = none ∧
    (∀ (rc : Int) (out err : String), rc ≠ 0 →
      run_pandoc (SubprocessOutcome.completed rc out err) = none) ∧
    (∀ (outcome : SubprocessOutcome) (s : String), run_pandoc outcome = some s →
      ∃ err, outcome = SubprocessOutcome.completed 0 s err) := by
  refine ⟨rfl, rfl, ?_, ?_⟩
  · intro rc out err h
    simp [run_pandoc, h]
  · intro outcome s h
    cases outcome with
    | completed rc out err =>
      by_cases h0 : rc = 0
      · subst h0
        simp [run_pandoc] at h
        exact ⟨err, by rw [h]⟩
      · simp [run_pandoc, h0] at h
    | fileNotFound => simp [run_pandoc] at h
    | timedOut => simp [run_pandoc] at h

/-- Witness for C6 at exit code 1. -/
theorem run_pandoc_failure_spec_witness :
    run_pandoc (SubprocessOutcome.completed 1 "out" "err") = none :=
  run_pandoc_failure_spec.2.2.1 1 "out" "err" (by decide)

/-- C7: both CLI `main` functions exit with code 0 exactly when the
underlying operation completes without raising, and with code 1 exactly
when it raises. -/
theorem cli_exit_code_spec (r : Except String String) :
    (convert_cli_exit r = 0 ↔ ∃ v, r = Except.ok v) ∧
    (convert_cli_exit r = 1 ↔ ∃ e, r = Except.error e) ∧
    (generate_cli_exit r = 0 ↔ ∃ v, r = Except.ok v) ∧
    (generate_cli_exit r = 1 ↔ ∃ e, r = Except.error e) := by
  cases r <;> simp [convert_cli_exit, generate_cli_exit]

/-- Witness for C7: a successful conversion exits 0, a failed generation
exits 1. -/
theorem cli_exit_code_spec_witness :
    convert_cli_exit (Except.ok "path") = 0 ∧
    generate_cli_exit (Except.error "boom") = 1 :=
  ⟨((cli_exit_code_spec (Except.ok "path")).1).mpr ⟨"path", rfl⟩,
   ((cli_exit_code_spec (Except.error "boom")).2.2.2).mpr ⟨"boom", rfl⟩⟩

/-- C8: for every non-empty `text_content` and every `ocr_content`, the
string returned by `merge_extractions` contains `text_content` verbatim as
a contiguous substring. -/
theorem merge_preserves_text_presence (t : String) (ht : t ≠ "") (o : Option String) :
    t.data <:+: (merge_extractions (some t) o).data := by
  have ht' : (t == "") = false := beq_eq_false_iff_ne.mpr ht
  match o with
  | none =>
    simp only [merge_extractions, optTruthy, ht', Bool.not_false, Bool.not_true,
      Bool.and_false, Bool.false_and, if_false, Option.getD_some]
    exact ⟨[], [], by simp⟩
  | some o' =>
    by_cases ho : o' = ""
    · subst ho
      simp only [merge_extractions, optTruthy, ht']
      exact ⟨[], [], by simp⟩
    · have ho' : (o' == "") = false := beq_eq_false_iff_ne.mpr ho
      simp only [merge_extractions, optTruthy, ht', ho', Bool.not_false,
        Bool.and_self, Bool.false_and, if_false, Option.getD_some]
      by_cases hlen : 10 * (pyStrip o').length ≤ 12 * (pyStrip t).length
      · simp only [hlen, if_true]
        exact ⟨[], [], by simp⟩
      · simp only [hlen, if_false]
        exact ⟨(o' ++ mergeSeparator).data, [], by
          simp [String.data_append]⟩

/-- Witness for C8 at `"x"` with no OCR content. -/
theorem merge_preserves_text_presence_witness :
    ("x" : String).data <:+: (merge_extractions (some "x") none).data :=
  merge_preserves_text_presence "x" (by decide) none

/-- C9: the update payload built by `ConfluenceClient.update_page` from the
fetched page carries version number `fetched version + 1`; when no new
title is supplied it resends the fetched title, and when no new body is
supplied the body field is omitted. -/
theorem update_page_request_spec (current : PageInfo) (body title : Option String)
    (body_format : String) (minor_edit : Bool) :
    (update_page_data current body title body_format minor_edit).versionNumber
      = current.versionNumber.getD 0 + 1 ∧
    (title = none →
      (update_page_data current body title body_format minor_edit).title
        = current.title.getD "") ∧
    (body = none →
      (update_page_data current body title body_format minor_edit).body = none) := by
  refine ⟨rfl, ?_, ?_⟩ <;> rintro rfl <;> simp [update_page_data, optTruthy]

/-- Witness for C9 at a page at version 7 titled "T", with neither a new
body nor a new title. -/
theorem update_page_request_spec_witness :
    (update_page_data ⟨some 7, some "T"⟩ none none "storage" false).versionNumber = 8 ∧
    (update_page_data ⟨some 7, some "T"⟩ none none "storage" false).title = "T" ∧
    (update_page_data ⟨some 7, some "T"⟩ none none "storage" false).body = none :=
  ⟨(update_page_request_spec ⟨some 7, some "T"⟩ none none "storage" false).1,
   (update_page_request_spec ⟨some 7, some "T"⟩ none none "storage" false).2.1 rfl,
   (update_page_request_spec ⟨some 7, some "T"⟩ none none "storage" false).2.2 rfl⟩

/-- C10: `extract_file_id` returns any slash-free input longer than 20
characters unchanged, and it raises `ValueError` exactly when that check
fails and none of the Google Drive URL patterns matches. -/
theorem extract_file_id_spec (s : String) :
    (s.data.contains '/' = false → s.length > 20 → extract_file_id s = Except.ok s) ∧
    ((∃ e, extract_file_id s = Except.error e) ↔
      (¬(s.data.contains '/' = false ∧ s.length > 20) ∧
        ∀ p ∈ drivePatterns, reSearchFirst p.data s.data = none)) := by
  constructor
  · intro h1 h2
    have h1' : '/' ∉ s.data := by simpa using h1
    simp [extract_file_id, h1', h2]
  · constructor
    · rintro ⟨e, he⟩
      unfold extract_file_id at he
      split at he
      · exact absurd he (by simp)
      next hcond =>
        cases hfind : drivePatterns.findSome? (fun p => reSearchFirst p.data s.data) with
        | some g => rw [hfind] at he; simp at he
        | none =>
          refine ⟨?_, List.findSome?_eq_none_iff.mp hfind⟩
          rintro ⟨h1, h2⟩
          have h1' : '/' ∉ s.data := by simpa using h1
          exact hcond (by simp [h1', h2])
    · rintro ⟨hnot, hall⟩
      unfold extract_file_id
      split
      next hcond =>
        exfalso
        apply hnot
        rw [Bool.and_eq_true] at hcond
        exact ⟨by simpa using hcond.1, of_decide_eq_true hcond.2⟩
      · rw [List.findSome?_eq_none_iff.mpr hall]
        exact ⟨_, rfl⟩

/-- Witness for C10 at a 21-character slash-free ID. -/
theorem extract_file_id_spec_witness :
    ("ABCDEFGHIJKLMNOPQRSTU" : String).data.contains '/' = false ∧
    ("ABCDEFGHIJKLMNOPQRSTU" : String).length > 20 ∧
    extract_file_id "ABCDEFGHIJKLMNOPQRSTU" = Except.ok "ABCDEFGHIJKLMNOPQRSTU" :=
  ⟨by decide, by decide,
   (extract_file_id_spec "ABCDEFGHIJKLMNOPQRSTU").1 (by decide) (by decide)⟩

end AgentDotfiles
